import Mathlib

/-!
Shallow embedding of the token-lifecycle and activity-mapping core of the
strava-activity-cli repository (src/strava_cli/client.py and
src/strava_cli/models.py), together with theorems settling the spec claims.

Conventions: Python `None` / an absent attribute is `Option.none`; Python
floats are `Rat`; Unix timestamps are `Int` seconds.  Fallible Python code
(code that can raise) is embedded with `Except` / `Option` result types,
with one error constructor per raise site.
-/

namespace Strava

/-! ## Activity mapper (models.py) -/

/-- Models a Python `datetime` value abstractly by the ISO-8601 string its
`isoformat()` call returns. -/
structure PyDatetime where
  iso : String
deriving DecidableEq

/-- Value sitting in a payload's `start_date` / `start_date_local` slot: a
datetime object, a plain string, or Python `None`.  Only a datetime object
supports the `.isoformat()` call made by `Activity.to_dict`. -/
inductive DateValue
  | dt (d : PyDatetime)
  | str (s : String)
  | noneD
deriving DecidableEq

/-- Value sitting in a payload's `moving_time` / `elapsed_time` slot: Python
`None`, an object with a `total_seconds()` method (a `timedelta`, modelled by
the rational number of seconds that method returns), or a raw integer. -/
inductive DurationValue
  | noneV
  | structured (total_seconds : Rat)
  | rawInt (n : Int)
deriving DecidableEq

/-- Value sitting in a payload's `type` slot: Python `None`, a plain string,
or a wrapped value (stravalib `RelaxedActivityType`) carrying the string in
its `root` attribute. -/
inductive TypeValue
  | missing
  | plain (s : String)
  | wrapped (root : String)
deriving DecidableEq

/-- A raw activity payload as seen through the attribute accesses performed
by `Activity.from_strava_activity` (models.py).  `none` in an `Option` field
models the attribute being absent or `None`. -/
structure RawActivity where
  id : Option Int
  name : Option String
  type : TypeValue
  distance : Option Rat
  moving_time : DurationValue
  elapsed_time : DurationValue
  total_elevation_gain : Option Rat
  start_date : DateValue
  start_date_local : DateValue
  average_speed : Option Rat
  max_speed : Option Rat
  average_heartrate : Option Rat
  max_heartrate : Option Rat
  description : Option String
  calories : Option Rat
  gear_id : Option String
  trainer : Option Bool
  commute : Option Bool
  private_ : Option Bool
deriving DecidableEq

/-- The `Activity` dataclass (models.py lines 8-30).  The dataclass's field
annotations are unchecked at runtime, so `id` and `name` hold whatever the
payload supplied (possibly `None`), and the date fields hold whatever object
was copied from the payload.  `private_` renders the Python field
`private`. -/
structure Activity where
  id : Option Int
  name : Option String
  type : String
  distance : Rat
  moving_time : Int
  elapsed_time : Int
  total_elevation_gain : Rat
  start_date : DateValue
  start_date_local : DateValue
  average_speed : Option Rat
  max_speed : Option Rat
  average_heartrate : Option Rat
  max_heartrate : Option Rat
  description : Option String
  calories : Option Rat
  gear_id : Option String
  trainer : Bool
  commute : Bool
  private_ : Bool
deriving DecidableEq

/-- Integer truncation toward zero of a rational number, as Python's
`int(...)` applied to a float: `int(3661.5) = 3661`, `int(-3661.5) = -3661`.
Computed on numerator and denominator with natural-number division so that it
evaluates by kernel reduction. -/
def truncTowardZero (q : Rat) : Int :=
  if 0 ≤ q.num then ((q.num.toNat / q.den : Nat) : Int)
  else -(((((-q.num).toNat) / q.den : Nat)) : Int)

/-- Helper `get_seconds` inside `Activity.from_strava_activity` (models.py
lines 44-49): `None` maps to 0, a value with a `total_seconds()` method to
`int(value.total_seconds())`, and anything else through `int(value)`. -/
def get_seconds : DurationValue → Int
  | .noneV => 0
  | .structured q => truncTowardZero q
  | .rawInt n => n

/-- The Python expression `float(x) if x else None` applied to an optional
numeric attribute: an absent attribute, `None`, and a numeric zero are all
falsy and map to `None`; a nonzero value is kept. -/
def float_if_truthy : Option Rat → Option Rat
  | none => none
  | some q => if q = 0 then none else some q

/-- The Python expression `float(x) if x else 0.0`: falsy values (absent,
`None`, zero) map to `0.0`; a nonzero value is kept. -/
def float_or_zero : Option Rat → Rat
  | none => 0
  | some q => if q = 0 then 0 else q

/-- Type extraction in `Activity.from_strava_activity` (models.py lines
51-56): a value with a `root` attribute is unwrapped to that attribute;
anything else goes through `str(...)`, so Python `None` becomes the string
"None". -/
def normalize_type : TypeValue → String
  | .missing => "None"
  | .plain s => s
  | .wrapped r => r

/-- `Activity.from_strava_activity` (models.py lines 32-82), translated field
by field.  The function performs no validation: every field of the payload is
either copied, unwrapped, or pushed through one of the falsy-coalescing
helpers above, and no input makes it raise. -/
def Activity.from_strava_activity (activity : RawActivity) : Activity where
  id := activity.id
  name := activity.name
  type := normalize_type activity.type
  distance := float_or_zero activity.distance
  moving_time := get_seconds activity.moving_time
  elapsed_time := get_seconds activity.elapsed_time
  total_elevation_gain := float_or_zero activity.total_elevation_gain
  start_date := activity.start_date
  start_date_local := activity.start_date_local
  average_speed := float_if_truthy activity.average_speed
  max_speed := float_if_truthy activity.max_speed
  average_heartrate := float_if_truthy activity.average_heartrate
  max_heartrate := float_if_truthy activity.max_heartrate
  description := activity.description
  calories := float_if_truthy activity.calories
  gear_id := activity.gear_id
  trainer := activity.trainer.getD false
  commute := activity.commute.getD false
  private_ := activity.private_.getD false

/-- The ordered mapping produced by `Activity.to_dict` (the transport form):
dates rendered as ISO-8601 strings, optional absent fields as JSON null
(`none`). -/
structure Transport where
  id : Option Int
  name : Option String
  type : String
  distance : Rat
  moving_time : Int
  elapsed_time : Int
  total_elevation_gain : Rat
  start_date : String
  start_date_local : String
  average_speed : Option Rat
  max_speed : Option Rat
  average_heartrate : Option Rat
  max_heartrate : Option Rat
  description : Option String
  calories : Option Rat
  gear_id : Option String
  trainer : Bool
  commute : Bool
  private_ : Bool
deriving DecidableEq

/-- The `.isoformat()` call made by `to_dict`: defined only on datetime
objects; on a plain string or on `None` Python raises `AttributeError`,
modelled by `none`. -/
def DateValue.isoformat : DateValue → Option String
  | .dt d => some d.iso
  | .str _ => none
  | .noneD => none

/-- `Activity.to_dict` (models.py lines 84-110).  Fails (Python raises
`AttributeError`) when a date field does not support `isoformat()`. -/
def Activity.to_dict (a : Activity) : Option Transport :=
  match a.start_date.isoformat, a.start_date_local.isoformat with
  | some sd, some sdl =>
      some { id := a.id, name := a.name, type := a.type, distance := a.distance,
             moving_time := a.moving_time, elapsed_time := a.elapsed_time,
             total_elevation_gain := a.total_elevation_gain,
             start_date := sd, start_date_local := sdl,
             average_speed := a.average_speed, max_speed := a.max_speed,
             average_heartrate := a.average_heartrate, max_heartrate := a.max_heartrate,
             description := a.description, calories := a.calories,
             gear_id := a.gear_id, trainer := a.trainer, commute := a.commute,
             private_ := a.private_ }
  | _, _ => none

/-- Reading a transport-shaped mapping back as a raw payload: every key of the
`to_dict` output is present, the dates are plain ISO strings, the durations
are raw integers and the type is a plain string. -/
def rawOfTransport (t : Transport) : RawActivity where
  id := t.id
  name := t.name
  type := .plain t.type
  distance := some t.distance
  moving_time := .rawInt t.moving_time
  elapsed_time := .rawInt t.elapsed_time
  total_elevation_gain := some t.total_elevation_gain
  start_date := .str t.start_date
  start_date_local := .str t.start_date_local
  average_speed := t.average_speed
  max_speed := t.max_speed
  average_heartrate := t.average_heartrate
  max_heartrate := t.max_heartrate
  description := t.description
  calories := t.calories
  gear_id := t.gear_id
  trainer := some t.trainer
  commute := some t.commute
  private_ := some t.private_

/-! ## Token manager (client.py) -/

/-- The `{access_token, refresh_token, expires_at}` triple returned by the
remote refresh endpoint (`client.refresh_access_token`). -/
structure TokenTriple where
  access_token : String
  refresh_token : String
  expires_at : Int
deriving DecidableEq

/-- Parsed content of the token file as read by `json.load` followed by
`data.get(...)`: each key may be absent. -/
structure RawCreds where
  access_token : Option String
  refresh_token : Option String
  expires_at : Option Int
deriving DecidableEq

/-- State of the token file: `none` means no file exists; `some none` means
the file exists but is not well-formed JSON (`json.load` raises); and
`some (some data)` means the file parses to `data`. -/
abbrev FileState := Option (Option RawCreds)

/-- Process environment configuration: the STRAVA_CLIENT_ID and
STRAVA_CLIENT_SECRET variables, each possibly unset. -/
structure Env where
  clientId : Option String
  clientSecret : Option String
deriving DecidableEq

/-- Python truthiness of an optional string: `None` and the empty string are
falsy. -/
def truthyOpt : Option String → Bool
  | none => false
  | some s => ! s.isEmpty

/-- Digit parsing for one character, used to model Python `int(...)` on a
string. -/
def digitVal? (c : Char) : Option Nat :=
  if c.isDigit then some (c.toNat - 48) else none

/-- Accumulating decimal parse of a digit list; fails on any non-digit. -/
def parseDigits : List Char → Nat → Option Nat
  | [], acc => some acc
  | c :: cs, acc =>
      match digitVal? c with
      | some d => parseDigits cs (acc * 10 + d)
      | none => none

/-- Models Python `int(s)` on a string: an optional sign followed by at least
one decimal digit; any other shape raises `ValueError` (`none` here). -/
def pyInt? (s : String) : Option Int :=
  match s.data with
  | [] => none
  | '-' :: [] => none
  | '-' :: cs => (parseDigits cs 0).map (fun n => -(n : Int))
  | cs => (parseDigits cs 0).map (fun n => (n : Int))

/-- Exceptions raised by `_load_and_set_token` / `_refresh_token`, one
constructor per raise site.  The spec's error taxonomy names the
`FileNotFoundError` CredentialsNotFound, the `ValueError`s on a bad token
file CredentialsInvalid, and the refresh-path failures RefreshFailed. -/
inductive PyErr
  | fileNotFoundError
  | valueErrorInvalidTokenFile
  | valueErrorMissingConfig
  | refreshCallFailed
deriving DecidableEq

/-- Observable outcome of a successful `_load_and_set_token`: the access
token installed on the client, the resulting token-file state, and the
refresh token that was passed to the remote refresh endpoint when a refresh
was performed (`none` when no refresh call was made). -/
structure ClientState where
  accessToken : Option String
  file : FileState
  refreshCalledWith : Option String
deriving DecidableEq

namespace StravaClient

/-- `StravaClient._refresh_token` (client.py lines 50-72): checks the two
environment secrets for truthiness, converts the client id with `int(...)`,
calls the remote endpoint (`refreshFn`, the external collaborator) with the
given refresh token, rewrites the token file with the full response and
installs the new access token. -/
def refresh_token_step (env : Env) (refreshFn : String → Option TokenTriple)
    (rt : String) : Except PyErr ClientState :=
  if !truthyOpt env.clientId || !truthyOpt env.clientSecret then
    .error .valueErrorMissingConfig
  else
    match pyInt? (env.clientId.getD "") with
    | none => .error .valueErrorMissingConfig
    | some _ =>
        match refreshFn rt with
        | none => .error .refreshCallFailed
        | some t =>
            .ok { accessToken := some t.access_token,
                  file := some (some { access_token := some t.access_token,
                                       refresh_token := some t.refresh_token,
                                       expires_at := some t.expires_at }),
                  refreshCalledWith := some rt }

/-- `StravaClient._load_and_set_token` (client.py lines 26-48): fails on a
missing file, on a file `json.load` cannot parse, and on a file whose
`access_token` or `refresh_token` is falsy; then refreshes exactly when
`expires_at` is truthy and `now > expires_at - 300`, and otherwise installs
the stored access token unchanged. -/
def load_and_set_token (file : FileState) (now : Int) (env : Env)
    (refreshFn : String → Option TokenTriple) : Except PyErr ClientState :=
  match file with
  | none => .error .fileNotFoundError
  | some none => .error .valueErrorInvalidTokenFile
  | some (some data) =>
      if !truthyOpt data.access_token || !truthyOpt data.refresh_token then
        .error .valueErrorInvalidTokenFile
      else
        match data.expires_at with
        | some e =>
            if e ≠ 0 ∧ now > e - 300 then
              refresh_token_step env refreshFn (data.refresh_token.getD "")
            else
              .ok { accessToken := data.access_token, file := file,
                    refreshCalledWith := none }
        | none =>
            .ok { accessToken := data.access_token, file := file,
                  refreshCalledWith := none }

end StravaClient

/-- The JSON text that `json.dump(token_response, f, indent=2)` writes for a
refreshed token triple (client.py lines 69-70). -/
def serializeTriple (t : TokenTriple) : String :=
  "\x7b\n  \"access_token\": \"" ++ t.access_token ++
    "\",\n  \"refresh_token\": \"" ++ t.refresh_token ++
    "\",\n  \"expires_at\": " ++ toString t.expires_at ++ "\n\x7d"

/-- File contents after `open(path, "w")` followed by a write of `new` of
which only the first `flushed` characters reached the disk before a failure:
opening with mode "w" truncates the previous contents immediately, so the old
text is destroyed and only a prefix of the new text remains. -/
def writeTruncated (new : String) (flushed : Nat) : String :=
  String.mk (new.data.take flushed)

/-! ## Shared concrete inputs and helper lemmas -/

/-- A payload supplying none of the attributes `from_strava_activity`
reads. -/
def emptyRaw : RawActivity where
  id := none
  name := none
  type := .missing
  distance := none
  moving_time := .noneV
  elapsed_time := .noneV
  total_elevation_gain := none
  start_date := .noneD
  start_date_local := .noneD
  average_speed := none
  max_speed := none
  average_heartrate := none
  max_heartrate := none
  description := none
  calories := none
  gear_id := none
  trainer := none
  commute := none
  private_ := none

/-- Applying the falsy-coalescing optional-float extraction twice is the same
as applying it once. -/
theorem float_if_truthy_idem (v : Option Rat) :
    float_if_truthy (float_if_truthy v) = float_if_truthy v := by
  cases v with
  | none => rfl
  | some q =>
      by_cases h : q = 0 <;> simp [float_if_truthy, h]

/-- Re-extracting an already extracted required float is the identity. -/
theorem float_or_zero_idem (v : Option Rat) :
    float_or_zero (some (float_or_zero v)) = float_or_zero v := by
  cases v with
  | none => simp [float_or_zero]
  | some q =>
      by_cases h : q = 0 <;> simp [float_or_zero, h]

/-! ## Claim theorems -/

/-- Claim C2, counterexample: a payload in which both identity attributes
`id` and `name` are absent is normalized without any failure.
`from_strava_activity` performs no identity validation (no `MalformedActivity`
error exists anywhere in the code); the absent identity values are copied
into the resulting record unchanged, alongside the usual defaults. -/
theorem c2_counterexample :
    Activity.from_strava_activity emptyRaw =
      { id := none, name := none, type := "None", distance := 0,
        moving_time := 0, elapsed_time := 0, total_elevation_gain := 0,
        start_date := .noneD, start_date_local := .noneD,
        average_speed := none, max_speed := none, average_heartrate := none,
        max_heartrate := none, description := none, calories := none,
        gear_id := none, trainer := false, commute := false,
        private_ := false } := rfl

/-- Claim C2 (amended): normalization never fails on missing or ill-typed
identity fields; `from_strava_activity` copies `id` and `name` through
unchanged, so an absent identity value stays absent in the record and no
error is raised. -/
theorem c2_no_identity_validation (a : RawActivity) :
    (Activity.from_strava_activity a).id = a.id ∧
    (Activity.from_strava_activity a).name = a.name :=
  ⟨rfl, rfl⟩

/-- Claim C3, counterexample: a payload that explicitly supplies the numeric
zero for every optional metric is normalized with all five metrics mapped to
the absent marker `none`, not to the value zero — explicit zero and absent
are conflated. -/
theorem c3_counterexample :
    Activity.from_strava_activity
        { emptyRaw with average_speed := some 0, max_speed := some 0,
                        average_heartrate := some 0, max_heartrate := some 0,
                        calories := some 0 } =
      Activity.from_strava_activity emptyRaw := by
  decide

/-- Claim C3 (amended): for each optional metric, a payload supplying an
explicit numeric zero and a payload with the key absent produce identical
Activity records — the code's truthiness test sends both to the absent
marker, so zero and absent are conflated rather than distinguished. -/
theorem c3_zero_conflated_with_absent (a : RawActivity) :
    Activity.from_strava_activity { a with average_speed := some 0 } =
      Activity.from_strava_activity { a with average_speed := none } ∧
    Activity.from_strava_activity { a with max_speed := some 0 } =
      Activity.from_strava_activity { a with max_speed := none } ∧
    Activity.from_strava_activity { a with average_heartrate := some 0 } =
      Activity.from_strava_activity { a with average_heartrate := none } ∧
    Activity.from_strava_activity { a with max_heartrate := some 0 } =
      Activity.from_strava_activity { a with max_heartrate := none } ∧
    Activity.from_strava_activity { a with calories := some 0 } =
      Activity.from_strava_activity { a with calories := none } := by
  refine ⟨?_, ?_, ?_, ?_, ?_⟩ <;>
    simp [Activity.from_strava_activity, float_if_truthy]

/-- Claim C9: duration normalization accepts a structured duration (an
object exposing `total_seconds()`) as well as a raw integer count, truncating
fractional seconds toward zero: a structured duration of 3661 seconds and the
raw integer 3661 both give `moving_time = 3661`, 3661.5 structured seconds
truncate to 3661, and -3661.5 truncates toward zero to -3661 (not down to
-3662). -/
theorem c9_duration_normalization (a : RawActivity) :
    (Activity.from_strava_activity
        { a with moving_time := .structured 3661 }).moving_time = 3661 ∧
    (Activity.from_strava_activity
        { a with moving_time := .rawInt 3661 }).moving_time = 3661 ∧
    (Activity.from_strava_activity
        { a with moving_time := .structured ((36615 : Rat) / 10) }).moving_time
      = 3661 ∧
    (Activity.from_strava_activity
        { a with moving_time := .structured (-((36615 : Rat) / 10)) }).moving_time
      = -3661 := by
  have h1 : ((36615 : Rat) / 10).num = 7323 := by norm_num
  have h2 : ((36615 : Rat) / 10).den = 2 := by norm_num
  have h3 : (-((36615 : Rat) / 10)).num = -7323 := by norm_num
  have h4 : (-((36615 : Rat) / 10)).den = 2 := by norm_num
  refine ⟨?_, rfl, ?_, ?_⟩
  · show get_seconds (.structured 3661) = 3661
    decide
  · show get_seconds (.structured ((36615 : Rat) / 10)) = 3661
    rw [get_seconds, truncTowardZero, h1, h2]
    decide
  · show get_seconds (.structured (-((36615 : Rat) / 10))) = -3661
    rw [get_seconds, truncTowardZero, h3, h4]
    decide

/-- Claim C4: loading from a path with no file fails with
`FileNotFoundError` (the spec's CredentialsNotFound); loading a file that is
not well-formed JSON, or whose `access_token` or `refresh_token` key is
absent, fails with the invalid-token-file `ValueError` (the spec's
CredentialsInvalid). -/
theorem c4_load_failure_modes (file : FileState) (now : Int) (env : Env)
    (rf : String → Option TokenTriple) :
    (file = none →
      StravaClient.load_and_set_token file now env rf =
        .error .fileNotFoundError) ∧
    (file = some none →
      StravaClient.load_and_set_token file now env rf =
        .error .valueErrorInvalidTokenFile) ∧
    (∀ data : RawCreds, file = some (some data) →
      data.access_token = none ∨ data.refresh_token = none →
      StravaClient.load_and_set_token file now env rf =
        .error .valueErrorInvalidTokenFile) := by
  refine ⟨?_, ?_, ?_⟩
  · rintro rfl; rfl
  · rintro rfl; rfl
  · rintro data rfl h
    rcases h with h | h <;>
      simp [StravaClient.load_and_set_token, truthyOpt, h]

/-- Witness for c4_load_failure_modes: a missing file, an unparsable file,
and a parsed file with no `access_token`, each at concrete inputs. -/
theorem c4_load_failure_modes_witness :
    StravaClient.load_and_set_token none 0 ⟨none, none⟩ (fun _ => none) =
      .error .fileNotFoundError ∧
    StravaClient.load_and_set_token (some none) 0 ⟨none, none⟩ (fun _ => none) =
      .error .valueErrorInvalidTokenFile ∧
    StravaClient.load_and_set_token (some (some ⟨none, some "r", some 5⟩)) 0
        ⟨none, none⟩ (fun _ => none) =
      .error .valueErrorInvalidTokenFile :=
  ⟨(c4_load_failure_modes none 0 ⟨none, none⟩ (fun _ => none)).1 rfl,
   (c4_load_failure_modes (some none) 0 ⟨none, none⟩ (fun _ => none)).2.1 rfl,
   (c4_load_failure_modes (some (some ⟨none, some "r", some 5⟩)) 0
       ⟨none, none⟩ (fun _ => none)).2.2 ⟨none, some "r", some 5⟩ rfl
     (Or.inl rfl)⟩

/-- Claim C5: when the stored `expires_at` is more than 300 seconds in the
future, loading installs the stored access token as-is, makes no call to the
refresh endpoint, and leaves the token file unmodified. -/
theorem c5_fresh_no_refresh (data : RawCreds) (now e : Int) (env : Env)
    (rf : String → Option TokenTriple)
    (hacc : truthyOpt data.access_token = true)
    (href : truthyOpt data.refresh_token = true)
    (hexp : data.expires_at = some e)
    (hfuture : now + 300 < e) :
    StravaClient.load_and_set_token (some (some data)) now env rf =
      .ok { accessToken := data.access_token, file := some (some data),
            refreshCalledWith := none } := by
  have hcond : ¬(e ≠ 0 ∧ now > e - 300) := by
    rintro ⟨-, hgt⟩; omega
  simp [StravaClient.load_and_set_token, hacc, href, hexp, hcond]

/-- Witness for c5_fresh_no_refresh at a concrete fresh record. -/
theorem c5_fresh_no_refresh_witness :
    StravaClient.load_and_set_token (some (some ⟨some "a", some "r", some 5000⟩))
        0 ⟨none, none⟩ (fun _ => none) =
      .ok { accessToken := some "a",
            file := some (some ⟨some "a", some "r", some 5000⟩),
            refreshCalledWith := none } :=
  c5_fresh_no_refresh ⟨some "a", some "r", some 5000⟩ 0 5000 ⟨none, none⟩
    (fun _ => none) rfl rfl rfl (by omega)

/-- Claim C8: a credential record with no `expires_at` key is treated as not
expired — the stored access token is installed as-is, no refresh call is
made, and the file is left unmodified. -/
theorem c8_absent_expiry_no_refresh (data : RawCreds) (now : Int) (env : Env)
    (rf : String → Option TokenTriple)
    (hacc : truthyOpt data.access_token = true)
    (href : truthyOpt data.refresh_token = true)
    (hexp : data.expires_at = none) :
    StravaClient.load_and_set_token (some (some data)) now env rf =
      .ok { accessToken := data.access_token, file := some (some data),
            refreshCalledWith := none } := by
  simp [StravaClient.load_and_set_token, hacc, href, hexp]

/-- Witness for c8_absent_expiry_no_refresh at a concrete record. -/
theorem c8_absent_expiry_no_refresh_witness :
    StravaClient.load_and_set_token (some (some ⟨some "a", some "r", none⟩))
        123456 ⟨none, none⟩ (fun _ => none) =
      .ok { accessToken := some "a",
            file := some (some ⟨some "a", some "r", none⟩),
            refreshCalledWith := none } :=
  c8_absent_expiry_no_refresh ⟨some "a", some "r", none⟩ 123456 ⟨none, none⟩
    (fun _ => none) rfl rfl rfl

/-- Claim C10: a credential record whose `expires_at` is present but equal to
0 takes the not-expired path even though the timestamp 0 lies in the past:
`expires_at` is falsy, so no refresh is attempted, the stored access token is
installed as-is, and the file is left unmodified. -/
theorem c10_zero_expiry_no_refresh (data : RawCreds) (now : Int) (env : Env)
    (rf : String → Option TokenTriple)
    (hacc : truthyOpt data.access_token = true)
    (href : truthyOpt data.refresh_token = true)
    (hexp : data.expires_at = some 0) :
    StravaClient.load_and_set_token (some (some data)) now env rf =
      .ok { accessToken := data.access_token, file := some (some data),
            refreshCalledWith := none } := by
  simp [StravaClient.load_and_set_token, hacc, href, hexp]

/-- Witness for c10_zero_expiry_no_refresh with `now` far past the epoch. -/
theorem c10_zero_expiry_no_refresh_witness :
    StravaClient.load_and_set_token (some (some ⟨some "a", some "r", some 0⟩))
        1000000 ⟨some "42", some "s"⟩ (fun _ => some ⟨"na", "nr", 9999999⟩) =
      .ok { accessToken := some "a",
            file := some (some ⟨some "a", some "r", some 0⟩),
            refreshCalledWith := none } :=
  c10_zero_expiry_no_refresh ⟨some "a", some "r", some 0⟩ 1000000
    ⟨some "42", some "s"⟩ (fun _ => some ⟨"na", "nr", 9999999⟩) rfl rfl rfl

/-- Claim C6, counterexample: at `now = 1000` the stored `expires_at = 0`
lies in the past, yet no refresh is performed — `refreshCalledWith = none` —
and the old access token is installed, because a zero `expires_at` is falsy.
The environment is fully configured and the refresh endpoint would answer, so
nothing but the falsiness of 0 blocks the refresh. -/
theorem c6_counterexample :
    StravaClient.load_and_set_token (some (some ⟨some "at", some "rt", some 0⟩))
        1000 ⟨some "123", some "secret"⟩ (fun _ => some ⟨"newacc", "newref", 99999⟩) =
      .ok { accessToken := some "at",
            file := some (some ⟨some "at", some "rt", some 0⟩),
            refreshCalledWith := none } := rfl

/-- Claim C6 (amended): for a record whose `expires_at` is present, nonzero
and within 300 seconds of `now` or in the past, loading invokes the refresh
endpoint with the record's refresh token; when the environment is configured
and the endpoint returns a triple, the installed access token is the
endpoint's, and the token file afterwards parses to exactly that triple. -/
theorem c6_expired_refresh (data : RawCreds) (now e : Int) (env : Env)
    (rf : String → Option TokenTriple) (t : TokenTriple) (cid : Int)
    (hacc : truthyOpt data.access_token = true)
    (href : truthyOpt data.refresh_token = true)
    (hexp : data.expires_at = some e)
    (hnz : e ≠ 0)
    (hpast : now > e - 300)
    (hcid : truthyOpt env.clientId = true)
    (hsec : truthyOpt env.clientSecret = true)
    (hparse : pyInt? (env.clientId.getD "") = some cid)
    (hrf : rf (data.refresh_token.getD "") = some t) :
    StravaClient.load_and_set_token (some (some data)) now env rf =
      .ok { accessToken := some t.access_token,
            file := some (some { access_token := some t.access_token,
                                 refresh_token := some t.refresh_token,
                                 expires_at := some t.expires_at }),
            refreshCalledWith := some (data.refresh_token.getD "") } := by
  simp [StravaClient.load_and_set_token, StravaClient.refresh_token_step,
        hacc, href, hexp, hnz, hpast, hcid, hsec, hparse, hrf]

/-- Witness for c6_expired_refresh: a concrete expired record whose refresh
succeeds and rewrites the file with the endpoint's triple. -/
theorem c6_expired_refresh_witness :
    StravaClient.load_and_set_token (some (some ⟨some "a", some "r", some 10⟩))
        10000 ⟨some "42", some "s"⟩ (fun _ => some ⟨"na", "nr", 999⟩) =
      .ok { accessToken := some "na",
            file := some (some ⟨some "na", some "nr", some 999⟩),
            refreshCalledWith := some "r" } :=
  c6_expired_refresh ⟨some "a", some "r", some 10⟩ 10000 10
    ⟨some "42", some "s"⟩ (fun _ => some ⟨"na", "nr", 999⟩) ⟨"na", "nr", 999⟩
    42 rfl rfl rfl (by omega) (by omega) rfl rfl (by decide) rfl

/-- Claim C1, counterexample: a refresh whose file write fails after one
character leaves the token file holding a single brace — neither the previous
contents (the old serialized triple) nor the fully written new triple.  The
in-place `open(path, "w")` plus `json.dump` overwrite is not atomic. -/
theorem c1_counterexample :
    writeTruncated (serializeTriple ⟨"newacc", "newref", 200⟩) 1 ≠
        serializeTriple ⟨"oldacc", "oldref", 100⟩ ∧
    writeTruncated (serializeTriple ⟨"newacc", "newref", 200⟩) 1 ≠
        serializeTriple ⟨"newacc", "newref", 200⟩ := by
  decide

/-- Claim C1 (amended): the credential-file overwrite truncates in place.  A
write that runs to completion leaves exactly the new serialized triple, but a
write that fails after `k` characters leaves the first `k` characters of the
new serialization: whenever that prefix differs from the old contents, the
resulting file is neither the old contents nor the full new triple. -/
theorem c1_truncating_overwrite (old : String) (t : TokenTriple) (k : Nat)
    (hk : k < (serializeTriple t).data.length)
    (hold : old ≠ writeTruncated (serializeTriple t) k) :
    writeTruncated (serializeTriple t) k ≠ old ∧
    writeTruncated (serializeTriple t) k ≠ serializeTriple t ∧
    writeTruncated (serializeTriple t) ((serializeTriple t).data.length) =
      serializeTriple t := by
  refine ⟨fun h => hold h.symm, fun h => ?_, ?_⟩
  · have hd : (serializeTriple t).data.take k = (serializeTriple t).data :=
      congrArg String.data h
    have hl := congrArg List.length hd
    rw [List.length_take] at hl
    omega
  · show String.mk ((serializeTriple t).data.take (serializeTriple t).data.length) =
      serializeTriple t
    rw [List.take_length]

/-- Witness for c1_truncating_overwrite at a concrete triple and a one
character flush. -/
theorem c1_truncating_overwrite_witness :
    writeTruncated (serializeTriple ⟨"a", "r", 1⟩) 1 ≠ "old" ∧
    writeTruncated (serializeTriple ⟨"a", "r", 1⟩) 1 ≠ serializeTriple ⟨"a", "r", 1⟩ ∧
    writeTruncated (serializeTriple ⟨"a", "r", 1⟩)
        ((serializeTriple ⟨"a", "r", 1⟩).data.length) =
      serializeTriple ⟨"a", "r", 1⟩ :=
  c1_truncating_overwrite "old" ⟨"a", "r", 1⟩ 1 (by decide) (by decide)

/-- A concrete payload already in normalized transport shape: every key
present, the dates carried as ISO-8601 strings exactly as `to_dict` renders
them. -/
def transport0 : Transport where
  id := some 1
  name := some "Morning Run"
  type := "Run"
  distance := 5000
  moving_time := 3600
  elapsed_time := 3700
  total_elevation_gain := 100
  start_date := "2024-01-01T10:00:00"
  start_date_local := "2024-01-01T11:00:00"
  average_speed := some 3
  max_speed := some 5
  average_heartrate := none
  max_heartrate := none
  description := none
  calories := none
  gear_id := none
  trainer := false
  commute := false
  private_ := false

/-- Claim C7, counterexample: on a payload already in transport shape the
date fields are ISO strings; normalization copies them unchanged, and
`to_dict` then raises `AttributeError` calling `.isoformat()` on a string
(`none` here) — so `to_transport(normalize(payload))` produces no transport
output at all, and re-normalizing it cannot yield the same record. -/
theorem c7_counterexample :
    ¬ ∃ t : Transport,
        (Activity.from_strava_activity (rawOfTransport transport0)).to_dict =
          some t ∧
        Activity.from_strava_activity (rawOfTransport t) =
          Activity.from_strava_activity (rawOfTransport transport0) := by
  rintro ⟨t, ht, -⟩
  have hnone :
      (Activity.from_strava_activity (rawOfTransport transport0)).to_dict =
        none := rfl
  rw [hnone] at ht
  exact Option.noConfusion ht

/-- Claim C7 (amended): for a payload whose date fields are datetime objects,
`to_dict` after normalization succeeds, and re-normalizing the transport
output reproduces the same Activity record on every field except
`start_date` and `start_date_local`, which come back as the ISO-8601 string
renderings of the original datetimes (the code never parses dates back). -/
theorem c7_roundtrip_modulo_dates (a : RawActivity) (d1 d2 : PyDatetime)
    (h1 : a.start_date = .dt d1) (h2 : a.start_date_local = .dt d2) :
    ∃ t : Transport,
      (Activity.from_strava_activity a).to_dict = some t ∧
      Activity.from_strava_activity (rawOfTransport t) =
        { Activity.from_strava_activity a with
            start_date := .str d1.iso, start_date_local := .str d2.iso } := by
  refine ⟨{ id := a.id, name := a.name, type := normalize_type a.type,
            distance := float_or_zero a.distance,
            moving_time := get_seconds a.moving_time,
            elapsed_time := get_seconds a.elapsed_time,
            total_elevation_gain := float_or_zero a.total_elevation_gain,
            start_date := d1.iso, start_date_local := d2.iso,
            average_speed := float_if_truthy a.average_speed,
            max_speed := float_if_truthy a.max_speed,
            average_heartrate := float_if_truthy a.average_heartrate,
            max_heartrate := float_if_truthy a.max_heartrate,
            description := a.description,
            calories := float_if_truthy a.calories,
            gear_id := a.gear_id,
            trainer := a.trainer.getD false,
            commute := a.commute.getD false,
            private_ := a.private_.getD false }, ?_, ?_⟩
  · simp only [Activity.to_dict, Activity.from_strava_activity, h1, h2,
      DateValue.isoformat]
  · simp [Activity.from_strava_activity, rawOfTransport, normalize_type,
      get_seconds, float_or_zero_idem, float_if_truthy_idem]

/-- Witness for c7_roundtrip_modulo_dates on a concrete datetime-carrying
payload. -/
theorem c7_roundtrip_modulo_dates_witness :
    ∃ t : Transport,
      (Activity.from_strava_activity
          { emptyRaw with start_date := .dt ⟨"2024-01-01T10:00:00"⟩,
                          start_date_local := .dt ⟨"2024-01-01T11:00:00"⟩ }).to_dict =
        some t ∧
      Activity.from_strava_activity (rawOfTransport t) =
        { Activity.from_strava_activity
            { emptyRaw with start_date := .dt ⟨"2024-01-01T10:00:00"⟩,
                            start_date_local := .dt ⟨"2024-01-01T11:00:00"⟩ } with
            start_date := .str "2024-01-01T10:00:00",
            start_date_local := .str "2024-01-01T11:00:00" } :=
  c7_roundtrip_modulo_dates
    { emptyRaw with start_date := .dt ⟨"2024-01-01T10:00:00"⟩,
                    start_date_local := .dt ⟨"2024-01-01T11:00:00"⟩ }
    ⟨"2024-01-01T10:00:00"⟩ ⟨"2024-01-01T11:00:00"⟩ rfl rfl

end Strava
